import Mathlib

/-
Verification of the "Forecast with Cold Start Items" notebook
(src/notebooks/advanced/Forecast with Cold Start Items/Forecast with Cold Start Items.ipynb)
against its natural-language specification.

The notebook is a linear script issuing remote API calls.  We embed it as a
concrete list of instructions (`script`) in the order of the notebook cells,
interpreted by `runFrom` over an environment supplying the service-assigned
ARNs and the outcome of every asynchronous wait.  The polling utility
`util.wait` lives in notebooks/common/util.py, which is not part of src/;
its behaviour is modelled from the specification (section 4.1).
-/

namespace ColdStartNotebook

/-- Modelled from the spec: lifecycle statuses of an asynchronous resource,
"CREATE_PENDING → CREATE_IN_PROGRESS → ACTIVE | CREATE_FAILED"
(spec section 3); `util.py` itself is not under src/. -/
inductive Status where
  | createPending
  | createInProgress
  | active
  | createFailed
deriving DecidableEq

/-- Modelled from the spec: the success-terminal status set is exactly ACTIVE. -/
def isSuccessTerminal : Status → Bool
  | Status.active => true
  | _ => false

/-- Modelled from the spec: the failure-terminal status set is exactly CREATE_FAILED. -/
def isFailureTerminal : Status → Bool
  | Status.createFailed => true
  | _ => false

/-- Modelled from the spec: the waiter's result, "success vs failure vs timeout"
(spec section 4.1), with timeout a distinct outcome from explicit failure. -/
inductive WaitOutcome where
  | success
  | failure
  | timeout
deriving DecidableEq

/-- Modelled from the spec: the polling loop of `util.wait`
(notebooks/common/util.py, not under src/).  The probe is a function from the
index of the polling round to the status observed at that round; the budget is
the maximum number of probes allowed by the fixed-interval wait budget.  The
second component of the result is the total number of probe calls issued. -/
def waitFrom (probe : Nat → Status) : Nat → Nat → WaitOutcome × Nat
  | 0, k => (WaitOutcome.timeout, k)
  | fuel + 1, k =>
    if isSuccessTerminal (probe k) then (WaitOutcome.success, k + 1)
    else if isFailureTerminal (probe k) then (WaitOutcome.failure, k + 1)
    else waitFrom probe fuel (k + 1)

/-- Modelled from the spec: `util.wait` polls from round 0 within the given budget. -/
def wait (probe : Nat → Status) (budget : Nat) : WaitOutcome × Nat :=
  waitFrom probe budget 0

/-- Modelled from the spec: `assert status` in the notebook passes exactly when
the waiter reported success ("Errors are surfaced by assertion: if a polled
resource does not reach success-terminal state, the script raises", spec
section 7). -/
def truthy : WaitOutcome → Bool
  | WaitOutcome.success => true
  | _ => false

/-- The resources the notebook creates on the remote service, in the order of
their creation: the dataset group (cell 26), the target time series and the
item metadata datasets (cells 36, 45), the two initial dataset import jobs
(cells 52, 56), the predictor (cell 63), the first forecast (cell 70), the
cold-start dataset import job (cell 78), the second forecast (cell 84) and
the forecast export job (cell 93). -/
inductive Res where
  | dsGroup
  | tsDataset
  | metaDataset
  | tsImport
  | metaImport
  | predictor
  | forecast1
  | coldImport
  | forecast2
  | exportJob
deriving DecidableEq

/-- An identifier argument of a remote call: either the opaque ARN extracted
from the create response of one of the script's resources, held in one of the
notebook's `*_arn` variables, or a locally constructed literal string. -/
inductive ArnRef where
  | ofRes (r : Res)
  | literal (s : String)
deriving DecidableEq

/-- The remote calls issued by the notebook, with the arguments relevant to
the claims: resource identifiers as `ArnRef`, schemas as ordered lists of
(AttributeName, AttributeType) pairs, and the name strings after resolving
the notebook's f-string interpolations of `project = "coldstart_demo"`. -/
inductive TCall where
  | getOrCreateRoleArn
  | getCallerIdentity
  | uploadS3 (key : String)
  | createDatasetGroup (domain name : String) (datasetArns : List ArnRef)
  | describeDatasetGroup (a : ArnRef)
  | createDataset (r : Res) (domain datasetType name : String)
      (schema : List (String × String))
  | describeDataset (a : ArnRef)
  | updateDatasetGroup (a : ArnRef) (datasetArns : List ArnRef)
  | createDatasetImportJob (r : Res) (jobName : String) (dataset : ArnRef) (key : String)
  | describeDatasetImportJob (a : ArnRef)
  | createPredictor (name algorithmArn : String) (horizon : Nat) (grp : ArnRef)
  | describePredictor (a : ArnRef)
  | createForecast (r : Res) (name : String) (pred : ArnRef)
  | describeForecast (a : ArnRef)
  | queryForecast (a : ArnRef) (itemId : String)
  | createForecastExportJob (name : String) (fc : ArnRef)
  | describeForecastExportJob (a : ArnRef)
  | deleteForecastExportJob (a : ArnRef)
  | deleteForecast (a : ArnRef)
  | deletePredictor (a : ArnRef)
  | deleteDatasetImportJob (a : ArnRef)
  | deleteDataset (a : ArnRef)
  | deleteDatasetGroup (a : ArnRef)
deriving DecidableEq

/-- One step of the notebook: a direct remote call, a `status = util.wait(...)`
followed by `assert status` on the given resource with the given zero-argument
probe, or a `util.wait_till_delete(...)` around the given delete call. -/
inductive Instr where
  | call (c : TCall)
  | waitAssert (r : Res) (probe : TCall)
  | waitTillDelete (c : TCall)
deriving DecidableEq

/-- The identifier arguments a remote call carries. -/
def refsOf : TCall → List ArnRef
  | TCall.getOrCreateRoleArn => []
  | TCall.getCallerIdentity => []
  | TCall.uploadS3 _ => []
  | TCall.createDatasetGroup _ _ ds => ds
  | TCall.describeDatasetGroup a => [a]
  | TCall.createDataset _ _ _ _ _ => []
  | TCall.describeDataset a => [a]
  | TCall.updateDatasetGroup a ds => a :: ds
  | TCall.createDatasetImportJob _ _ d _ => [d]
  | TCall.describeDatasetImportJob a => [a]
  | TCall.createPredictor _ _ _ g => [g]
  | TCall.describePredictor a => [a]
  | TCall.createForecast _ _ p => [p]
  | TCall.describeForecast a => [a]
  | TCall.queryForecast a _ => [a]
  | TCall.createForecastExportJob _ f => [f]
  | TCall.describeForecastExportJob a => [a]
  | TCall.deleteForecastExportJob a => [a]
  | TCall.deleteForecast a => [a]
  | TCall.deletePredictor a => [a]
  | TCall.deleteDatasetImportJob a => [a]
  | TCall.deleteDataset a => [a]
  | TCall.deleteDatasetGroup a => [a]

/-- The identifier arguments an instruction passes to the service (for a wait,
those of its probe). -/
def refsOfInstr : Instr → List ArnRef
  | Instr.call c => refsOf c
  | Instr.waitAssert _ p => refsOf p
  | Instr.waitTillDelete c => refsOf c

/-- The environment of one execution: the opaque ARN the remote service
assigns to each resource at creation time, and the outcome `util.wait`
reports for the wait on each resource. -/
structure Env where
  arn : Res → String
  outcome : Res → WaitOutcome

/-- The configuration read from the two text widgets (cell 4). -/
structure Config where
  bucketName : String
  region : String

/-- Resolving an identifier argument to the string actually passed: the ARN
variable holds exactly the service-assigned ARN of the create response. -/
def resolveRef (env : Env) : ArnRef → String
  | ArnRef.ofRes r => env.arn r
  | ArnRef.literal s => s

/-- A trace event: the executed instruction together with the resolved
identifier strings it passed to the service. -/
def evOf (env : Env) (i : Instr) : Instr × List String :=
  (i, (refsOfInstr i).map (resolveRef env))

/-- Whether the whole script ran to the end or an `assert` raised. -/
inductive RunResult where
  | completed
  | assertionFailure
deriving DecidableEq

/-- Executes a list of instructions in order.  A `waitAssert` whose outcome is
not truthy raises (`assert status`) and halts execution: nothing after it is
executed. -/
def runFrom (env : Env) : List Instr → List (Instr × List String) × RunResult
  | [] => ([], RunResult.completed)
  | Instr.waitAssert r p :: rest =>
    if truthy (env.outcome r) then
      (evOf env (Instr.waitAssert r p) :: (runFrom env rest).1, (runFrom env rest).2)
    else ([evOf env (Instr.waitAssert r p)], RunResult.assertionFailure)
  | Instr.call c :: rest =>
    (evOf env (Instr.call c) :: (runFrom env rest).1, (runFrom env rest).2)
  | Instr.waitTillDelete c :: rest =>
    (evOf env (Instr.waitTillDelete c) :: (runFrom env rest).1, (runFrom env rest).2)

/-- The notebook, cell by cell.  Cells that stay local (widget creation,
gunzip, pandas frames, plotting) issue no remote call and are omitted; each
remaining cell appears in source order with its cell number noted. -/
def script : List Instr :=
  [ Instr.call TCall.getOrCreateRoleArn,                                      -- cell 7
    Instr.call TCall.getCallerIdentity,                                       -- cell 19
    Instr.call (TCall.uploadS3 "cold-start/test.csv"),                        -- cell 20
    Instr.call (TCall.uploadS3 "cold-start/itemMetaData.csv"),                -- cell 21
    Instr.call (TCall.createDatasetGroup "CUSTOM" "coldstart_demo_grp" []),   -- cell 26
    Instr.call (TCall.describeDatasetGroup (ArnRef.ofRes Res.dsGroup)),       -- cell 29
    Instr.call (TCall.createDataset Res.tsDataset "CUSTOM" "TARGET_TIME_SERIES"
      "coldstart_demo_ts"
      [("timestamp", "timestamp"), ("target_value", "float"), ("item_id", "string")]),
                                                                              -- cells 34, 36
    Instr.call (TCall.describeDataset (ArnRef.ofRes Res.tsDataset)),          -- cell 38
    Instr.call (TCall.createDataset Res.metaDataset "CUSTOM" "ITEM_METADATA"
      "coldstart_demo_meta"
      [("item_id", "string"), ("category", "string")]),                       -- cells 43, 45
    Instr.call (TCall.describeDataset (ArnRef.ofRes Res.metaDataset)),        -- cell 47
    Instr.call (TCall.updateDatasetGroup (ArnRef.ofRes Res.dsGroup)
      [ArnRef.ofRes Res.tsDataset, ArnRef.ofRes Res.metaDataset]),            -- cell 49
    Instr.call (TCall.describeDatasetGroup (ArnRef.ofRes Res.dsGroup)),       -- cell 50
    Instr.call (TCall.createDatasetImportJob Res.tsImport "coldstart_demo_grp"
      (ArnRef.ofRes Res.tsDataset) "cold-start/test.csv"),                    -- cell 52
    Instr.waitAssert Res.tsImport
      (TCall.describeDatasetImportJob (ArnRef.ofRes Res.tsImport)),           -- cell 54
    Instr.call (TCall.createDatasetImportJob Res.metaImport "coldstart_demo_grp"
      (ArnRef.ofRes Res.metaDataset) "cold-start/itemMetaData.csv"),          -- cell 56
    Instr.waitAssert Res.metaImport
      (TCall.describeDatasetImportJob (ArnRef.ofRes Res.metaImport)),         -- cell 58
    Instr.call (TCall.createPredictor "coldstart_demo_deep_ar_plus"
      "arn:aws:forecast:::algorithm/Deep_AR_Plus" 48 (ArnRef.ofRes Res.dsGroup)),
                                                                              -- cell 63
    Instr.waitAssert Res.predictor
      (TCall.describePredictor (ArnRef.ofRes Res.predictor)),                 -- cell 65
    Instr.call (TCall.describePredictor (ArnRef.ofRes Res.predictor)),        -- cell 66
    Instr.call (TCall.createForecast Res.forecast1 "coldstart_demo_deep_ar_plus_2"
      (ArnRef.ofRes Res.predictor)),                                          -- cell 70
    Instr.waitAssert Res.forecast1
      (TCall.describeForecast (ArnRef.ofRes Res.forecast1)),                  -- cell 72
    Instr.call (TCall.describeForecast (ArnRef.ofRes Res.forecast1)),         -- cell 73
    Instr.call (TCall.uploadS3 "cold-start/coldStartTargetData.csv"),         -- cell 77
    Instr.call (TCall.createDatasetImportJob Res.coldImport "coldstart_demo_grp_2"
      (ArnRef.ofRes Res.tsDataset) "cold-start/coldStartTargetData.csv"),     -- cell 78
    Instr.call (TCall.describeDatasetImportJob (ArnRef.ofRes Res.coldImport)), -- cell 80
    Instr.waitAssert Res.coldImport
      (TCall.describeDatasetImportJob (ArnRef.ofRes Res.coldImport)),         -- cell 81
    Instr.call (TCall.createForecast Res.forecast2 "coldstart_demo_deep_ar_plus_3"
      (ArnRef.ofRes Res.predictor)),                                          -- cell 84
    Instr.waitAssert Res.forecast2
      (TCall.describeForecast (ArnRef.ofRes Res.forecast2)),                  -- cell 86
    Instr.call (TCall.describeForecast (ArnRef.ofRes Res.forecast2)),         -- cell 87
    Instr.call (TCall.queryForecast (ArnRef.ofRes Res.forecast2) "client_370"), -- cell 89
    Instr.call (TCall.createForecastExportJob
      "coldstart_demo_cold_start_forecast_export_deep_ar_plus"
      (ArnRef.ofRes Res.forecast2)),                                          -- cell 93
    Instr.waitAssert Res.exportJob
      (TCall.describeForecastExportJob (ArnRef.ofRes Res.exportJob)),         -- cell 94
    Instr.waitTillDelete (TCall.deleteForecastExportJob (ArnRef.ofRes Res.exportJob)),
                                                                              -- cell 97
    Instr.waitTillDelete (TCall.deleteForecast (ArnRef.ofRes Res.forecast1)), -- cell 98
    Instr.waitTillDelete (TCall.deleteForecast (ArnRef.ofRes Res.forecast2)), -- cell 98
    Instr.waitTillDelete (TCall.deletePredictor (ArnRef.ofRes Res.predictor)), -- cell 99
    Instr.waitTillDelete (TCall.deleteDatasetImportJob (ArnRef.ofRes Res.tsImport)),
                                                                              -- cell 100
    Instr.waitTillDelete (TCall.deleteDatasetImportJob (ArnRef.ofRes Res.metaImport)),
                                                                              -- cell 100
    Instr.waitTillDelete (TCall.deleteDatasetImportJob (ArnRef.ofRes Res.coldImport)),
                                                                              -- cell 100
    Instr.waitTillDelete (TCall.deleteDataset (ArnRef.ofRes Res.tsDataset)),  -- cell 101
    Instr.waitTillDelete (TCall.deleteDataset (ArnRef.ofRes Res.metaDataset)), -- cell 101
    Instr.call (TCall.deleteDatasetGroup (ArnRef.ofRes Res.dsGroup)) ]        -- cell 102

/-- The whole notebook run: cell 5 first asserts that `bucketName` and
`region` are non-empty, before the service clients are constructed (cell 6)
and before any remote call; only then does the remote sequence run. -/
def runScript (cfg : Config) (env : Env) : List (Instr × List String) × RunResult :=
  if cfg.bucketName = "" then ([], RunResult.assertionFailure)
  else if cfg.region = "" then ([], RunResult.assertionFailure)
  else runFrom env script

/-- Holds when every wait event of a trace whose outcome was not truthy is the
last event of the trace: execution never continues past a failed wait. -/
def haltsAtFailedWait (env : Env) : List (Instr × List String) → Bool
  | [] => true
  | (Instr.waitAssert r _, _) :: rest =>
    if truthy (env.outcome r) then haltsAtFailedWait env rest else rest.isEmpty
  | _ :: rest => haltsAtFailedWait env rest

/-- The forecasting-service lifecycle calls: the create, update, query, export
and delete operations, leaving out the read-only describes, the object-storage
uploads and the credential lookups. -/
def isLifecycleCall : TCall → Bool
  | TCall.createDatasetGroup _ _ _ => true
  | TCall.createDataset _ _ _ _ _ => true
  | TCall.updateDatasetGroup _ _ => true
  | TCall.createDatasetImportJob _ _ _ _ => true
  | TCall.createPredictor _ _ _ _ => true
  | TCall.createForecast _ _ _ => true
  | TCall.queryForecast _ _ => true
  | TCall.createForecastExportJob _ _ => true
  | TCall.deleteForecastExportJob _ => true
  | TCall.deleteForecast _ => true
  | TCall.deletePredictor _ => true
  | TCall.deleteDatasetImportJob _ => true
  | TCall.deleteDataset _ => true
  | TCall.deleteDatasetGroup _ => true
  | _ => false

/-- Projects an instruction sequence onto its lifecycle calls (the delete
inside a `wait_till_delete` counts as that delete call). -/
def lifecycleCalls (l : List Instr) : List TCall :=
  l.filterMap fun i =>
    match i with
    | Instr.call c => if isLifecycleCall c then some c else none
    | Instr.waitTillDelete c => some c
    | Instr.waitAssert _ _ => none

/-- Whether a call is a dataset import job creation. -/
def isImportJobCreate : TCall → Bool
  | TCall.createDatasetImportJob _ _ _ _ => true
  | _ => false

/-- Holds when no dataset import job creation occurs after a predictor
creation in the call sequence; the claimed order "import jobs, then train the
predictor" entails it. -/
def noImportAfterPredictor : List TCall → Bool
  | [] => true
  | TCall.createPredictor _ _ _ _ :: rest =>
    rest.all (fun d => !isImportJobCreate d) && noImportAfterPredictor rest
  | _ :: rest => noImportAfterPredictor rest

/-- Whether a call is any `create_*` call on the forecasting service. -/
def isCreateCall : TCall → Bool
  | TCall.createDatasetGroup _ _ _ => true
  | TCall.createDataset _ _ _ _ _ => true
  | TCall.createDatasetImportJob _ _ _ _ => true
  | TCall.createPredictor _ _ _ _ => true
  | TCall.createForecast _ _ _ => true
  | TCall.createForecastExportJob _ _ => true
  | _ => false

/-- The resource a call creates asynchronously, when it does: dataset import
jobs, the predictor, the forecasts and the forecast export job. -/
def asyncCreateRes : TCall → Option Res
  | TCall.createDatasetImportJob r _ _ _ => some r
  | TCall.createPredictor _ _ _ _ => some Res.predictor
  | TCall.createForecast r _ _ => some r
  | TCall.createForecastExportJob _ _ => some Res.exportJob
  | _ => none

/-- Holds when a wait on resource `r` occurs before the next create call. -/
def waitedBeforeNextCreate (r : Res) : List Instr → Bool
  | [] => false
  | Instr.waitAssert r' _ :: rest =>
    if r' = r then true else waitedBeforeNextCreate r rest
  | Instr.call c :: rest =>
    if isCreateCall c then false else waitedBeforeNextCreate r rest
  | Instr.waitTillDelete _ :: rest => waitedBeforeNextCreate r rest

/-- Holds when every asynchronous create in the instruction sequence is
followed by a wait-and-assert on the created resource before any further
create call is issued. -/
def asyncCreatesAwaited : List Instr → Bool
  | [] => true
  | Instr.call c :: rest =>
    (match asyncCreateRes c with
     | some r => waitedBeforeNextCreate r rest
     | none => true) && asyncCreatesAwaited rest
  | _ :: rest => asyncCreatesAwaited rest

/-- Scans an instruction sequence tracking whether the target time series and
the item metadata dataset deletes have completed; every dataset group delete
must come after both. -/
def deleteOrderScan (tsDone metaDone : Bool) : List Instr → Bool
  | [] => true
  | Instr.waitTillDelete (TCall.deleteDataset (ArnRef.ofRes Res.tsDataset)) :: rest =>
    deleteOrderScan true metaDone rest
  | Instr.waitTillDelete (TCall.deleteDataset (ArnRef.ofRes Res.metaDataset)) :: rest =>
    deleteOrderScan tsDone true rest
  | Instr.call (TCall.deleteDatasetGroup _) :: rest =>
    tsDone && metaDone && deleteOrderScan tsDone metaDone rest
  | _ :: rest => deleteOrderScan tsDone metaDone rest

/-- The probes the script hands to `util.wait`, in order. -/
def probeCalls (l : List Instr) : List TCall :=
  l.filterMap fun i =>
    match i with
    | Instr.waitAssert _ p => some p
    | _ => none

/-- Whether a call is one of the four read-only describe operations the spec
allows as a probe. -/
def isReadOnlyProbe : TCall → Bool
  | TCall.describeDatasetImportJob _ => true
  | TCall.describePredictor _ => true
  | TCall.describeForecast _ => true
  | TCall.describeForecastExportJob _ => true
  | _ => false

/-- The dataset schemas the script declares to the service, in order. -/
def declaredSchemas (l : List Instr) : List (Res × List (String × String)) :=
  l.filterMap fun i =>
    match i with
    | Instr.call (TCall.createDataset r _ _ _ sch) => some (r, sch)
    | _ => none

/-- Modelled from the spec: the target time series CSV input schema,
"(timestamp, target_value, item_id)" with the stated attribute types, for
comparison with the schema the script declares. -/
def specTsSchema : List (String × String) :=
  [("timestamp", "timestamp"), ("target_value", "float"), ("item_id", "string")]

/-- Modelled from the spec: the item metadata CSV input schema,
"(item_id, category)", for comparison with the schema the script declares. -/
def specMetaSchema : List (String × String) :=
  [("item_id", "string"), ("category", "string")]

/-- Whether every identifier argument of every instruction is an unmodified
create-response ARN rather than a locally constructed literal. -/
def allRefsAreCreateArns (l : List Instr) : Bool :=
  l.all fun i =>
    (refsOfInstr i).all fun a =>
      match a with
      | ArnRef.ofRes _ => true
      | ArnRef.literal _ => false

/-- A concrete well-formed configuration for the witnesses. -/
def cfgW : Config := ⟨"b", "r"⟩

/-- A concrete environment in which every wait succeeds. -/
def envW : Env := ⟨fun _ => "a", fun _ => WaitOutcome.success⟩

/-- A concrete environment in which every wait reports failure. -/
def envF : Env := ⟨fun _ => "a", fun _ => WaitOutcome.failure⟩

/-- A concrete probe that is pending at round 0 and fails at round 1. -/
def probeW : Nat → Status := fun j => if j = 1 then Status.createFailed else Status.createPending

/-- A concrete probe that never reaches a terminal status. -/
def probeT : Nat → Status := fun _ => Status.createPending

/-- The order in which the script actually issues its lifecycle calls: as the
claimed order, except that the cold-start dataset import job is issued after
the predictor is trained and the first forecast is generated, and before the
second forecast. -/
def amendedCallOrder : List TCall :=
  [ TCall.createDatasetGroup "CUSTOM" "coldstart_demo_grp" [],
    TCall.createDataset Res.tsDataset "CUSTOM" "TARGET_TIME_SERIES" "coldstart_demo_ts"
      [("timestamp", "timestamp"), ("target_value", "float"), ("item_id", "string")],
    TCall.createDataset Res.metaDataset "CUSTOM" "ITEM_METADATA" "coldstart_demo_meta"
      [("item_id", "string"), ("category", "string")],
    TCall.updateDatasetGroup (ArnRef.ofRes Res.dsGroup)
      [ArnRef.ofRes Res.tsDataset, ArnRef.ofRes Res.metaDataset],
    TCall.createDatasetImportJob Res.tsImport "coldstart_demo_grp"
      (ArnRef.ofRes Res.tsDataset) "cold-start/test.csv",
    TCall.createDatasetImportJob Res.metaImport "coldstart_demo_grp"
      (ArnRef.ofRes Res.metaDataset) "cold-start/itemMetaData.csv",
    TCall.createPredictor "coldstart_demo_deep_ar_plus"
      "arn:aws:forecast:::algorithm/Deep_AR_Plus" 48 (ArnRef.ofRes Res.dsGroup),
    TCall.createForecast Res.forecast1 "coldstart_demo_deep_ar_plus_2"
      (ArnRef.ofRes Res.predictor),
    TCall.createDatasetImportJob Res.coldImport "coldstart_demo_grp_2"
      (ArnRef.ofRes Res.tsDataset) "cold-start/coldStartTargetData.csv",
    TCall.createForecast Res.forecast2 "coldstart_demo_deep_ar_plus_3"
      (ArnRef.ofRes Res.predictor),
    TCall.queryForecast (ArnRef.ofRes Res.forecast2) "client_370",
    TCall.createForecastExportJob
      "coldstart_demo_cold_start_forecast_export_deep_ar_plus"
      (ArnRef.ofRes Res.forecast2),
    TCall.deleteForecastExportJob (ArnRef.ofRes Res.exportJob),
    TCall.deleteForecast (ArnRef.ofRes Res.forecast1),
    TCall.deleteForecast (ArnRef.ofRes Res.forecast2),
    TCall.deletePredictor (ArnRef.ofRes Res.predictor),
    TCall.deleteDatasetImportJob (ArnRef.ofRes Res.tsImport),
    TCall.deleteDatasetImportJob (ArnRef.ofRes Res.metaImport),
    TCall.deleteDatasetImportJob (ArnRef.ofRes Res.coldImport),
    TCall.deleteDataset (ArnRef.ofRes Res.tsDataset),
    TCall.deleteDataset (ArnRef.ofRes Res.metaDataset),
    TCall.deleteDatasetGroup (ArnRef.ofRes Res.dsGroup) ]

end ColdStartNotebook

namespace ColdStartNotebook

/-- A failure-terminal status is not success-terminal. -/
theorem failureTerminal_not_successTerminal (s : Status)
    (h : isFailureTerminal s = true) : isSuccessTerminal s = false := by
  cases s <;> simp_all [isFailureTerminal, isSuccessTerminal]

/-- If round `k0` is the first terminal round and it is failure-terminal, the
polling loop started at any round `k ≤ k0` with enough fuel stops at round
`k0` with outcome `failure`, having issued exactly `k0 + 1` probes. -/
theorem waitFrom_first_failure (probe : Nat → Status) (k0 : Nat)
    (hfail : isFailureTerminal (probe k0) = true) :
    ∀ fuel k, k ≤ k0 → k0 < k + fuel →
      (∀ j, k ≤ j → j < k0 →
        isSuccessTerminal (probe j) = false ∧ isFailureTerminal (probe j) = false) →
      waitFrom probe fuel k = (WaitOutcome.failure, k0 + 1) := by
  intro fuel
  induction fuel with
  | zero =>
    intro k hk hlt _
    omega
  | succ n ih =>
    intro k hk hlt hnt
    by_cases hkk : k = k0
    · subst hkk
      have hs : isSuccessTerminal (probe k) = false :=
        failureTerminal_not_successTerminal _ hfail
      simp [waitFrom, hs, hfail]
    · have hklt : k < k0 := lt_of_le_of_ne hk hkk
      obtain ⟨hs, hf⟩ := hnt k le_rfl hklt
      simp only [waitFrom, hs, hf, Bool.false_eq_true, if_false]
      exact ih (k + 1) (by omega) (by omega) (fun j hj1 hj2 => hnt j (by omega) hj2)

/-- If no round before `k + fuel` starting at `k` is terminal, the polling loop
exhausts its fuel and reports timeout after `k + fuel` probes. -/
theorem waitFrom_timeout (probe : Nat → Status) :
    ∀ fuel k,
      (∀ j, k ≤ j → j < k + fuel →
        isSuccessTerminal (probe j) = false ∧ isFailureTerminal (probe j) = false) →
      waitFrom probe fuel k = (WaitOutcome.timeout, k + fuel) := by
  intro fuel
  induction fuel with
  | zero => intro k _; simp [waitFrom]
  | succ n ih =>
    intro k hnt
    obtain ⟨hs, hf⟩ := hnt k le_rfl (by omega)
    simp only [waitFrom, hs, hf, Bool.false_eq_true, if_false]
    rw [ih (k + 1) (fun j hj1 hj2 => hnt j (by omega) (by omega))]
    simp only [Prod.mk.injEq, true_and]
    omega

/-- C2: if the probe reports a failure-terminal status (e.g. CREATE_FAILED) at
round `k0` within the budget, and every earlier round was non-terminal, then
the waiter returns the failure outcome and issues no probe call after the one
that observed the failure: the total probe count is exactly `k0 + 1`. -/
theorem c2_failure_stops_polling (probe : Nat → Status) (budget k0 : Nat)
    (hk : k0 < budget)
    (hfail : isFailureTerminal (probe k0) = true)
    (hpre : ∀ j, j < k0 →
      isSuccessTerminal (probe j) = false ∧ isFailureTerminal (probe j) = false) :
    wait probe budget = (WaitOutcome.failure, k0 + 1) :=
  waitFrom_first_failure probe k0 hfail budget 0 (Nat.zero_le _) (by omega)
    (fun j _ hj => hpre j hj)

/-- Concrete witness for C2: `probeW` is pending at round 0 and fails at
round 1; with budget 3 the waiter yields failure after exactly 2 probes. -/
theorem c2_failure_stops_polling_witness :
    1 < 3 ∧ wait probeW 3 = (WaitOutcome.failure, 2) :=
  ⟨by decide, c2_failure_stops_polling probeW 3 1 (by decide) (by decide)
    (fun j hj => by
      have hj0 : j = 0 := by omega
      subst hj0
      exact ⟨by decide, by decide⟩)⟩

/-- C3: if the probe reports no terminal status at any round within the
configured budget, the waiter terminates with the timeout outcome, which is
distinct from both the success outcome and the explicit-failure outcome. -/
theorem c3_timeout_distinct (probe : Nat → Status) (budget : Nat)
    (hnt : ∀ j, j < budget →
      isSuccessTerminal (probe j) = false ∧ isFailureTerminal (probe j) = false) :
    wait probe budget = (WaitOutcome.timeout, budget) ∧
      WaitOutcome.timeout ≠ WaitOutcome.success ∧
      WaitOutcome.timeout ≠ WaitOutcome.failure := by
  refine ⟨?_, by decide, by decide⟩
  have h := waitFrom_timeout probe budget 0 (fun j _ hj => hnt j (by omega))
  rw [wait, h]
  simp

/-- Concrete witness for C3: `probeT` is forever pending; with budget 2 the
waiter yields the timeout outcome after 2 probes. -/
theorem c3_timeout_distinct_witness :
    wait probeT 2 = (WaitOutcome.timeout, 2) ∧
      WaitOutcome.timeout ≠ WaitOutcome.success ∧
      WaitOutcome.timeout ≠ WaitOutcome.failure :=
  c3_timeout_distinct probeT 2 (fun _ _ => ⟨rfl, rfl⟩)

/-- When every wait succeeds, the interpreter executes every instruction in
order and completes. -/
theorem runFrom_all_success (env : Env)
    (hw : ∀ r, env.outcome r = WaitOutcome.success) :
    ∀ l : List Instr,
      (runFrom env l).1.map Prod.fst = l ∧ (runFrom env l).2 = RunResult.completed := by
  intro l
  induction l with
  | nil => simp [runFrom]
  | cons i rest ih =>
    cases i with
    | call c => simpa [runFrom, evOf] using ih
    | waitTillDelete c => simpa [runFrom, evOf] using ih
    | waitAssert r q => simpa [runFrom, evOf, hw r, truthy] using ih

/-- Every event of a trace comes from an instruction of the executed list, and
its identifier strings are exactly the resolved identifier arguments of that
instruction. -/
theorem runFrom_mem (env : Env) :
    ∀ l : List Instr, ∀ p ∈ (runFrom env l).1,
      p.1 ∈ l ∧ p.2 = (refsOfInstr p.1).map (resolveRef env) := by
  intro l
  induction l with
  | nil => intro p hp; simp [runFrom] at hp
  | cons i rest ih =>
    intro p hp
    cases i with
    | call c =>
      simp only [runFrom] at hp
      rcases List.mem_cons.mp hp with h | h
      · subst h; exact ⟨List.mem_cons_self _ _, rfl⟩
      · obtain ⟨h1, h2⟩ := ih p h
        exact ⟨List.mem_cons_of_mem _ h1, h2⟩
    | waitTillDelete c =>
      simp only [runFrom] at hp
      rcases List.mem_cons.mp hp with h | h
      · subst h; exact ⟨List.mem_cons_self _ _, rfl⟩
      · obtain ⟨h1, h2⟩ := ih p h
        exact ⟨List.mem_cons_of_mem _ h1, h2⟩
    | waitAssert r q =>
      by_cases ht : truthy (env.outcome r) = true
      · simp only [runFrom, if_pos ht] at hp
        rcases List.mem_cons.mp hp with h | h
        · subst h; exact ⟨List.mem_cons_self _ _, rfl⟩
        · obtain ⟨h1, h2⟩ := ih p h
          exact ⟨List.mem_cons_of_mem _ h1, h2⟩
      · simp only [runFrom, if_neg ht] at hp
        rcases List.mem_cons.mp hp with h | h
        · subst h; exact ⟨List.mem_cons_self _ _, rfl⟩
        · simp at h

/-- In every trace the interpreter produces, a wait whose outcome is not
truthy is the final event: execution never continues past a failed wait. -/
theorem runFrom_halts (env : Env) :
    ∀ l : List Instr, haltsAtFailedWait env (runFrom env l).1 = true := by
  intro l
  induction l with
  | nil => simp [runFrom, haltsAtFailedWait]
  | cons i rest ih =>
    cases i with
    | call c => simpa [runFrom, evOf, haltsAtFailedWait] using ih
    | waitTillDelete c => simpa [runFrom, evOf, haltsAtFailedWait] using ih
    | waitAssert r q =>
      by_cases ht : truthy (env.outcome r) = true
      · simpa [runFrom, evOf, haltsAtFailedWait, ht] using ih
      · simp [runFrom, evOf, haltsAtFailedWait, ht]

/-- If the executed list holds a wait whose outcome is not truthy, the run
ends in an assertion failure. -/
theorem runFrom_fail (env : Env) (r : Res) (q : TCall)
    (hf : truthy (env.outcome r) = false) :
    ∀ l : List Instr, Instr.waitAssert r q ∈ l →
      (runFrom env l).2 = RunResult.assertionFailure := by
  intro l
  induction l with
  | nil => intro h; simp at h
  | cons i rest ih =>
    intro hmem
    rcases List.mem_cons.mp hmem with h | h
    · subst h
      simp [runFrom, hf]
    · cases i with
      | call c => simpa [runFrom] using ih h
      | waitTillDelete c => simpa [runFrom] using ih h
      | waitAssert r' q' =>
        by_cases ht : truthy (env.outcome r') = true
        · simpa [runFrom, ht] using ih h
        · simp [runFrom, ht]

/-- With a non-empty bucket name and region the configuration assertions pass
and the run is the interpretation of the script. -/
theorem runScript_eq_runFrom (cfg : Config) (env : Env)
    (hb : cfg.bucketName ≠ "") (hr : cfg.region ≠ "") :
    runScript cfg env = runFrom env script := by
  simp [runScript, hb, hr]

/-- C1: for every wait-and-assert the script performs, if the waiter reports a
non-success (hence non-truthy) value, the run ends in an assertion failure,
and no event of the trace follows a failed wait: the script never silently
continues past a wait whose resource did not reach the success-terminal
state. -/
theorem c1_failed_wait_asserts (cfg : Config) (env : Env) (r : Res) (q : TCall)
    (hb : cfg.bucketName ≠ "") (hr : cfg.region ≠ "")
    (hmem : Instr.waitAssert r q ∈ script)
    (hf : truthy (env.outcome r) = false) :
    (runScript cfg env).2 = RunResult.assertionFailure ∧
      haltsAtFailedWait env (runScript cfg env).1 = true := by
  rw [runScript_eq_runFrom cfg env hb hr]
  exact ⟨runFrom_fail env r q hf script hmem, runFrom_halts env script⟩

/-- Concrete witness for C1: with every wait reporting failure, the run halts
in an assertion failure at the first wait (the target time series import). -/
theorem c1_failed_wait_asserts_witness :
    (runScript cfgW envF).2 = RunResult.assertionFailure ∧
      haltsAtFailedWait envF (runScript cfgW envF).1 = true :=
  c1_failed_wait_asserts cfgW envF Res.tsImport
    (TCall.describeDatasetImportJob (ArnRef.ofRes Res.tsImport))
    (by decide) (by decide) (by decide) (by decide)

/-- C4 counterexample: the claim puts every dataset import job before the
predictor training, but in a completed run of the script (here with every
wait succeeding) a dataset import job — the cold-start import, cell 78 — is
issued after the predictor creation, so the claimed fixed order is violated. -/
theorem c4_order_counterexample :
    noImportAfterPredictor (lifecycleCalls ((runScript cfgW envW).1.map Prod.fst)) = false := by
  decide

/-- C4 as amended: in a run that passes the configuration assertions and in
which every wait succeeds, the script issues its lifecycle calls in exactly
the order of `amendedCallOrder`: dataset group, the two datasets, update,
the two initial import jobs, predictor, first forecast, the cold-start import
job, second forecast, query, export, and the deletes in the category order
export job, forecasts, predictor, import jobs, datasets, dataset group. -/
theorem c4_amended_call_order (cfg : Config) (env : Env)
    (hb : cfg.bucketName ≠ "") (hr : cfg.region ≠ "")
    (hw : ∀ r, env.outcome r = WaitOutcome.success) :
    lifecycleCalls ((runScript cfg env).1.map Prod.fst) = amendedCallOrder := by
  rw [runScript_eq_runFrom cfg env hb hr, (runFrom_all_success env hw script).1]
  decide

/-- Concrete witness for C4 as amended. -/
theorem c4_amended_call_order_witness :
    lifecycleCalls ((runScript cfgW envW).1.map Prod.fst) = amendedCallOrder :=
  c4_amended_call_order cfgW envW (by decide) (by decide) (fun _ => rfl)

/-- C5: in a run that passes the configuration assertions and in which every
wait succeeds, after every asynchronous create call (import job, predictor,
forecast, export job) the script waits on that very resource and asserts
success before issuing the next create call: no two asynchronous operations
are in flight at once. -/
theorem c5_async_creates_awaited (cfg : Config) (env : Env)
    (hb : cfg.bucketName ≠ "") (hr : cfg.region ≠ "")
    (hw : ∀ r, env.outcome r = WaitOutcome.success) :
    asyncCreatesAwaited ((runScript cfg env).1.map Prod.fst) = true := by
  rw [runScript_eq_runFrom cfg env hb hr, (runFrom_all_success env hw script).1]
  decide

/-- Concrete witness for C5. -/
theorem c5_async_creates_awaited_witness :
    asyncCreatesAwaited ((runScript cfgW envW).1.map Prod.fst) = true :=
  c5_async_creates_awaited cfgW envW (by decide) (by decide) (fun _ => rfl)

/-- C6: in a run that passes the configuration assertions and in which every
wait succeeds, every dataset group delete call is preceded by the completed,
awaited deletes of both member datasets (target time series and item
metadata). -/
theorem c6_group_deleted_after_datasets (cfg : Config) (env : Env)
    (hb : cfg.bucketName ≠ "") (hr : cfg.region ≠ "")
    (hw : ∀ r, env.outcome r = WaitOutcome.success) :
    deleteOrderScan false false ((runScript cfg env).1.map Prod.fst) = true := by
  rw [runScript_eq_runFrom cfg env hb hr, (runFrom_all_success env hw script).1]
  decide

/-- Concrete witness for C6. -/
theorem c6_group_deleted_after_datasets_witness :
    deleteOrderScan false false ((runScript cfgW envW).1.map Prod.fst) = true :=
  c6_group_deleted_after_datasets cfgW envW (by decide) (by decide) (fun _ => rfl)

/-- C7: the dataset schemas the script declares are exactly the spec's CSV
input schemas, in attribute order: (timestamp, target_value, item_id) with
types (timestamp, float, string) for the target time series dataset, and
(item_id, category) with types (string, string) for the item metadata
dataset. -/
theorem c7_declared_schemas :
    declaredSchemas script =
      [(Res.tsDataset, specTsSchema), (Res.metaDataset, specMetaSchema)] := by
  decide

/-- C8: the zero-argument probes the script hands to `util.wait` are exactly
seven read-only describe calls — describe_dataset_import_job for the three
dataset loads, describe_predictor, describe_forecast for both forecasts and
describe_forecast_export_job — and every one of them is in the read-only
describe set: the waiter never mutates the resource it tracks. -/
theorem c8_probes_read_only :
    probeCalls script =
      [ TCall.describeDatasetImportJob (ArnRef.ofRes Res.tsImport),
        TCall.describeDatasetImportJob (ArnRef.ofRes Res.metaImport),
        TCall.describePredictor (ArnRef.ofRes Res.predictor),
        TCall.describeForecast (ArnRef.ofRes Res.forecast1),
        TCall.describeDatasetImportJob (ArnRef.ofRes Res.coldImport),
        TCall.describeForecast (ArnRef.ofRes Res.forecast2),
        TCall.describeForecastExportJob (ArnRef.ofRes Res.exportJob) ] ∧
      (probeCalls script).all isReadOnlyProbe = true :=
  ⟨rfl, rfl⟩

/-- C9: every identifier string any executed call passes to the service is
exactly the service-assigned ARN of one of the script's resources, used
unmodified; the script never constructs or alters an identifier for a
resource it created. -/
theorem c9_identifiers_are_create_arns (cfg : Config) (env : Env)
    (p : Instr × List String) (s : String)
    (hp : p ∈ (runScript cfg env).1) (hs : s ∈ p.2) :
    ∃ r : Res, s = env.arn r ∧ ArnRef.ofRes r ∈ refsOfInstr p.1 := by
  by_cases hb : cfg.bucketName = ""
  · simp [runScript, hb] at hp
  · by_cases hr : cfg.region = ""
    · simp [runScript, hb, hr] at hp
    · rw [runScript_eq_runFrom cfg env hb hr] at hp
      obtain ⟨hmem, hargs⟩ := runFrom_mem env script p hp
      rw [hargs] at hs
      obtain ⟨a, ha, hsa⟩ := List.mem_map.mp hs
      have hall : allRefsAreCreateArns script = true := by decide
      have h1 := List.all_eq_true.mp hall p.1 hmem
      have h2 := List.all_eq_true.mp h1 a ha
      cases a with
      | ofRes r => exact ⟨r, hsa.symm, ha⟩
      | literal t => simp at h2

/-- Concrete witness for C9: the identifier the describe of the dataset group
passes is the ARN the service assigned to the dataset group. -/
theorem c9_identifiers_are_create_arns_witness :
    ∃ r : Res, "a" = envW.arn r ∧
      ArnRef.ofRes r ∈ refsOfInstr
        (Instr.call (TCall.describeDatasetGroup (ArnRef.ofRes Res.dsGroup))) :=
  c9_identifiers_are_create_arns cfgW envW
    (Instr.call (TCall.describeDatasetGroup (ArnRef.ofRes Res.dsGroup)), ["a"]) "a"
    (by decide) (by decide)

/-- C10: if the bucket name or the region is empty, the script halts at the
configuration assertions of cell 5 with an assertion failure, before any
remote call: the trace is empty. -/
theorem c10_empty_config_halts (cfg : Config) (env : Env)
    (h : cfg.bucketName = "" ∨ cfg.region = "") :
    (runScript cfg env).1 = [] ∧ (runScript cfg env).2 = RunResult.assertionFailure := by
  rcases h with h | h
  · simp [runScript, h]
  · by_cases hb : cfg.bucketName = ""
    · simp [runScript, hb]
    · simp [runScript, hb, h]

/-- Concrete witness for C10: an empty bucket name halts the script with no
remote calls issued. -/
theorem c10_empty_config_halts_witness :
    (runScript ⟨"", "us-west-2"⟩ envW).1 = [] ∧
      (runScript ⟨"", "us-west-2"⟩ envW).2 = RunResult.assertionFailure :=
  c10_empty_config_halts ⟨"", "us-west-2"⟩ envW (Or.inl rfl)

end ColdStartNotebook
